import Mathlib

/-
Verification development for the LuxeFit AI jewelry-visualization app.

Shallow embedding of the core state and protocol logic:
  - the data model of src/types.ts (Region, GeneratedAsset, GenerationBatch, ...),
  - the id-keyed history update (updateAssetInHistory in App.tsx),
  - the batch orchestrator (handleGenerate), the feedback verification
    protocol (handleVerifyIntent), regeneration (handleRegenerate),
  - the retry/backoff controller (retryOperation in geminiService.ts) with
    its error classifier, and verifyFeedbackIntent with its fallback,
  - the region selector drag normalization (handleMouseMove in the result
    card component).

External network calls are modelled as oracle parameters; machine numbers
are Nat and the percentage coordinates are rationals.
-/

namespace LuxeFit

/-- Model of the JavaScript String.prototype.includes used by the error
classifier and the error-message mapping: pat occurs contiguously in s.
charListHasPre pat s means pat is a leading segment of s. -/
def charListHasPre (pat s : List Char) : Bool :=
  match pat, s with
  | [], _ => true
  | _ :: _, [] => false
  | p :: ps, c :: cs => p == c && charListHasPre ps cs

/-- Occurrence of pat somewhere in s, scanning left to right. -/
def charListContains (s pat : List Char) : Bool :=
  match s with
  | [] => pat.isEmpty
  | _ :: cs => charListHasPre pat s || charListContains cs pat

/-- JS s.includes(pat) on the underlying character lists. -/
def strIncludes (s pat : String) : Bool := charListContains s.data pat.data

/-- JS String.prototype.trim: drop whitespace from both ends. -/
def strTrim (s : String) : String :=
  String.mk (((s.data.dropWhile Char.isWhitespace).reverse.dropWhile Char.isWhitespace).reverse)

/- ---------- Data model (src/types.ts) ---------- -/

inductive AspectRatio where
  | r3_4
  | r9_16
  | r1_1
deriving DecidableEq

inductive ImageResolution where
  | r2K
  | r4K
deriving DecidableEq

inductive AppMode where
  | tryOn
  | scene
deriving DecidableEq

/-- Region: x, y, width, height, each a percentage (0 to 100) of the image
dimensions, origin top-left. -/
structure Region where
  x : ℚ
  y : ℚ
  width : ℚ
  height : ℚ
deriving DecidableEq

/-- UploadedFile: the File handle is opaque and modelled as a string. -/
structure UploadedFile where
  file : String
  previewUrl : String
  base64 : String
deriving DecidableEq

/-- GeneratedAsset from src/types.ts. TS optional fields are Option; the
optional boolean isVerifyingFeedback is Option Bool. -/
structure GeneratedAsset where
  id : String
  imageUrl : Option String
  imagePrompt : String
  isImageLoading : Bool
  error : Option String
  aspectRatio : AspectRatio
  resolution : ImageResolution
  feedbackDraft : Option String
  isVerifyingFeedback : Option Bool
  feedbackInterpretation : Option String
  feedbackReferenceImages : Option (List String)
  feedbackRegion : Option Region
deriving DecidableEq

structure GenerationBatch where
  id : String
  timestamp : Nat
  mode : AppMode
  assets : List GeneratedAsset
deriving DecidableEq

/-- A Partial update of GeneratedAsset, as passed to updateAssetInHistory.
Each field is none when the update does not name it; for a TS-optional
asset field the update can also explicitly store undefined, hence the
nested Option. -/
structure AssetUpdate where
  id : Option String := none
  imageUrl : Option (Option String) := none
  imagePrompt : Option String := none
  isImageLoading : Option Bool := none
  error : Option (Option String) := none
  aspectRatio : Option AspectRatio := none
  resolution : Option ImageResolution := none
  feedbackDraft : Option (Option String) := none
  isVerifyingFeedback : Option (Option Bool) := none
  feedbackInterpretation : Option (Option String) := none
  feedbackReferenceImages : Option (Option (List String)) := none
  feedbackRegion : Option (Option Region) := none
deriving DecidableEq

/-- The TS object spread: fields named by the update replace the asset
fields, all others are kept. -/
def applyAssetUpdate (u : AssetUpdate) (a : GeneratedAsset) : GeneratedAsset :=
  { id := u.id.getD a.id
    imageUrl := u.imageUrl.getD a.imageUrl
    imagePrompt := u.imagePrompt.getD a.imagePrompt
    isImageLoading := u.isImageLoading.getD a.isImageLoading
    error := u.error.getD a.error
    aspectRatio := u.aspectRatio.getD a.aspectRatio
    resolution := u.resolution.getD a.resolution
    feedbackDraft := u.feedbackDraft.getD a.feedbackDraft
    isVerifyingFeedback := u.isVerifyingFeedback.getD a.isVerifyingFeedback
    feedbackInterpretation := u.feedbackInterpretation.getD a.feedbackInterpretation
    feedbackReferenceImages := u.feedbackReferenceImages.getD a.feedbackReferenceImages
    feedbackRegion := u.feedbackRegion.getD a.feedbackRegion }

/-- The inner map of updateAssetInHistory: replace the matching asset of
one batch, keep the others. -/
def updateBatchAssets (assetId : String) (u : AssetUpdate) (b : GenerationBatch) : GenerationBatch :=
  { b with assets := b.assets.map (fun a => if a.id = assetId then applyAssetUpdate u a else a) }

/-- updateAssetInHistory from App.tsx: map over the history, return any
batch whose id differs unchanged, and inside the matching batch replace
the matching asset by the spread update. -/
def updateAssetInHistory (batchId assetId : String) (u : AssetUpdate)
    (hist : List GenerationBatch) : List GenerationBatch :=
  hist.map (fun b => if b.id ≠ batchId then b else updateBatchAssets assetId u b)

/- ---------- Retry / backoff controller (src/services/geminiService.ts) ---------- -/

/-- A thrown JS error as seen by the classifier in retryOperation: either
its status and message can be read, or inspecting it throws (the inner
try/catch of the classifier). -/
inductive JsError where
  | inspectable (status : Option Nat) (message : String)
  | uninspectable
deriving DecidableEq

/-- The error classification of retryOperation: status 503, 500 or 429, or
one of the known transient-failure message signatures. When inspecting
the error itself throws, the code defaults to retryable. -/
def classifyRetryable : JsError → Bool
  | JsError.inspectable status message =>
      status == some 503 ||
      status == some 500 ||
      status == some 429 ||
      strIncludes message "Deadline expired" ||
      strIncludes message "Overloaded" ||
      strIncludes message "UNAVAILABLE" ||
      strIncludes message "Unexpected end of JSON input" ||
      strIncludes message "Failed to construct \x27Response\x27" ||
      strIncludes message "Response body object should not be disturbed" ||
      strIncludes message "ReadableStreamDefaultController" ||
      strIncludes message "network" ||
      strIncludes message "fetch"
  | JsError.uninspectable => true

/-- retryOperation. The operation is an oracle indexed by the attempt
number. The result records the final outcome, the number of attempts
made, and the list of sleep delays in order. A failure with retries
exhausted is rethrown before classification; a retryable failure sleeps
for delay and recurses with retries - 1 and delay doubled; a
non-retryable failure is rethrown. -/
def retryOperation {α : Type} (op : Nat → Except JsError α) :
    Nat → Nat → Nat → Except JsError α × Nat × List Nat
  | 0, _delay, k =>
    match op k with
    | Except.ok v => (Except.ok v, 1, [])
    | Except.error e => (Except.error e, 1, [])
  | r + 1, delay, k =>
    match op k with
    | Except.ok v => (Except.ok v, 1, [])
    | Except.error e =>
      if classifyRetryable e then
        let tail := retryOperation op r (delay * 2) (k + 1)
        (tail.1, tail.2.1 + 1, delay :: tail.2.2)
      else
        (Except.error e, 1, [])

/- ---------- verifyFeedbackIntent (src/services/geminiService.ts) ---------- -/

/-- Post-processing of the interpretation response: response.text, trimmed,
with the literal fallback when the text is missing or trims to empty. -/
def interpretResponseText (t : Option String) : String :=
  match t with
  | some s => if strTrim s = "" then "确认您的修改需求" else strTrim s
  | none => "确认您的修改需求"

/-- verifyFeedbackIntent: wraps the interpretation call (oracle call,
returning the optional response text) in retryOperation with 2 retries and
1000ms initial delay; any error escaping the retry wrapper is absorbed
into a literal fallback string built from the raw feedback. The prompt
assembly inputs are carried for the shape of the routine; the oracle
stands for the model call on the assembled prompt. -/
def verifyFeedbackIntent (call : Nat → Except JsError (Option String))
    (_originalPrompt feedback : String) (_currentImageBase64 : Option String)
    (_feedbackReferenceBase64s : List String) (_region : Option Region) : String :=
  match (retryOperation (fun k => Except.map interpretResponseText (call k)) 2 1000 0).1 with
  | Except.ok s => s
  | Except.error _ => "确认您的需求：" ++ feedback

/- ---------- Batch orchestrator (handleGenerate in App.tsx) ---------- -/

/-- One mode-defined generation task: batch-scoped id, human-readable
label, viewpoint or scene instruction. -/
structure GenTask where
  id : String
  label : String
  prompt : String
deriving DecidableEq

/-- The fixed mode-dependent task descriptors of handleGenerate: 4 tasks
in try-on mode, 3 scene variations in scene mode. -/
def mkTasks (mode : AppMode) (batchId scenePrompt : String) : List GenTask :=
  match mode with
  | AppMode.tryOn =>
      [ { id := batchId ++ "-0", label := "细节特写",
          prompt := "Extreme close-up macro shot focused entirely on the jewelry texture and craftsmanship. Shallow depth of field." },
        { id := batchId ++ "-1", label := "近景正面",
          prompt := "Close-up portrait (Chest up/Face). Front view. Perfect symmetry showing how the jewelry hangs/sits." },
        { id := batchId ++ "-2", label := "近景侧面",
          prompt := "Close-up side profile (45-degree). Highlighting structural depth." },
        { id := batchId ++ "-3", label := "手部互动",
          prompt := "Model is gently touching the jewelry or adjusting it. Elegant hand pose interacting with the product." } ]
  | AppMode.scene =>
      [ { id := batchId ++ "-0", label := "场景展示 1", prompt := scenePrompt },
        { id := batchId ++ "-1", label := "场景展示 2", prompt := scenePrompt ++ " (Variation in angle)" },
        { id := batchId ++ "-2", label := "场景展示 3", prompt := scenePrompt ++ " (Variation in lighting)" } ]

/-- The placeholder asset created for each task before any call is made:
loading, no image, 2K, current aspect ratio, no feedback state. -/
def placeholderAsset (ar : AspectRatio) (t : GenTask) : GeneratedAsset :=
  { id := t.id
    imageUrl := none
    imagePrompt := t.label
    isImageLoading := true
    error := none
    aspectRatio := ar
    resolution := ImageResolution.r2K
    feedbackDraft := none
    isVerifyingFeedback := none
    feedbackInterpretation := none
    feedbackReferenceImages := none
    feedbackRegion := none }

/-- Merge of a successful generation result into the asset. -/
def genSuccessUpdate (img : String) : AssetUpdate :=
  { imageUrl := some (some img), isImageLoading := some false }

/-- Merge of a failed generation into the asset. -/
def genFailureUpdate (msg : String) : AssetUpdate :=
  { isImageLoading := some false, error := some (some msg) }

/-- The catch handler of the generation loop: JSON.stringify of the error
is string-matched to pick the user-facing message. -/
def mapGenError (errorString : String) : String :=
  if strIncludes errorString "User location is not supported" then
    "所在地区暂不支持 (请检查网络/VPN)。"
  else if strIncludes errorString "500" || strIncludes errorString "Internal Server Error" then
    "服务器繁忙，请稍后重试。"
  else
    "生成失败，请重试。"

/-- The sequential for-await loop of handleGenerate: each task calls the
generation oracle, merges the settled result into its asset by id, and
only then the next task is dispatched. Returns the dispatch trace, the
task id paired with its settled outcome in dispatch order, and the final
history. -/
def runBatchLoop (gen : GenTask → Except String String) (batchId : String) :
    List GenTask → List GenerationBatch →
    List (String × Except String String) × List GenerationBatch
  | [], hist => ([], hist)
  | t :: rest, hist =>
    let r := gen t
    let hist1 := match r with
      | Except.ok img => updateAssetInHistory batchId t.id (genSuccessUpdate img) hist
      | Except.error e => updateAssetInHistory batchId t.id (genFailureUpdate (mapGenError e)) hist
    let tail := runBatchLoop gen batchId rest hist1
    ((t.id, r) :: tail.1, tail.2)

/-- handleGenerate: validation, task synthesis, atomic creation of the
batch with its placeholder assets prepended to history, then the
sequential dispatch loop. Returns none when validation rejects; otherwise
the history right after the prepend, the dispatch trace and the final
history. now stands for Date.now() deriving the batch id, ts for the
Date.now() stored as the timestamp. -/
def handleGenerate (mode : AppMode) (productImages referenceImages : List UploadedFile)
    (modelImage : Option UploadedFile) (scenePrompt : String) (ar : AspectRatio)
    (now ts : Nat) (prev : List GenerationBatch) (gen : GenTask → Except String String) :
    Option (List GenerationBatch × (List (String × Except String String) × List GenerationBatch)) :=
  if productImages.length = 0 then none
  else if mode = AppMode.tryOn ∧ (referenceImages.length = 0 ∨ modelImage = none) then none
  else
    let batchId := toString now
    let tasks := mkTasks mode batchId scenePrompt
    let newAssets := tasks.map (placeholderAsset ar)
    let initHist := ({ id := batchId, timestamp := ts, mode := mode, assets := newAssets } : GenerationBatch) :: prev
    some (initHist, runBatchLoop gen batchId tasks initHist)

/- ---------- Feedback verification protocol (handleVerifyIntent in App.tsx) ---------- -/

/-- The clear-request update: isVerifyingFeedback false, interpretation,
reference images and region cleared. feedbackDraft is not named. -/
def clearFeedbackUpdate : AssetUpdate :=
  { isVerifyingFeedback := some (some false)
    feedbackInterpretation := some none
    feedbackReferenceImages := some none
    feedbackRegion := some none }

/-- The update applied when verification starts. -/
def verifyStartUpdate : AssetUpdate :=
  { isVerifyingFeedback := some (some true) }

/-- The update applied when the interpretation call returns. -/
def verifyDoneUpdate (interpretation feedback : String) (files : List String)
    (region : Option Region) : AssetUpdate :=
  { isVerifyingFeedback := some (some false)
    feedbackInterpretation := some (some interpretation)
    feedbackDraft := some (some feedback)
    feedbackReferenceImages := some (some files)
    feedbackRegion := some region }

/-- handleVerifyIntent: finds the owning batch; with all three inputs
empty it only applies the clear update; otherwise it marks the asset
verifying, invokes the interpretation service once and stores the result.
The second component counts the interpretation-service invocations. -/
def handleVerifyIntent
    (svc : String → String → Option String → List String → Option Region → String)
    (hist : List GenerationBatch) (assetId feedback : String) (files : List String)
    (region : Option Region) : List GenerationBatch × Nat :=
  match hist.find? (fun b => b.assets.any (fun a => a.id == assetId)) with
  | none => (hist, 0)
  | some batch =>
    if feedback == "" && files.isEmpty && region.isNone then
      (updateAssetInHistory batch.id assetId clearFeedbackUpdate hist, 0)
    else
      let hist1 := updateAssetInHistory batch.id assetId verifyStartUpdate hist
      let asset := batch.assets.find? (fun a => a.id == assetId)
      let originalPrompt := (asset.map (fun a => a.imagePrompt)).getD ""
      let currentImageUrl := asset.bind (fun a => a.imageUrl)
      let interpretation := svc originalPrompt feedback currentImageUrl files region
      (updateAssetInHistory batch.id assetId
        (verifyDoneUpdate interpretation feedback files region) hist1, 1)

/- ---------- Regeneration (handleRegenerate in App.tsx) ---------- -/

/-- The reset update applied when regeneration starts. -/
def regenStartUpdate : AssetUpdate :=
  { isImageLoading := some true
    error := some none
    feedbackInterpretation := some none }

/-- The update applied when regeneration succeeds. -/
def regenSuccessUpdate (img : String) : AssetUpdate :=
  { imageUrl := some (some img)
    isImageLoading := some false
    feedbackReferenceImages := some none
    feedbackRegion := some none }

/-- The update applied when regeneration fails. -/
def regenFailureUpdate : AssetUpdate :=
  { isImageLoading := some false, error := some (some "重绘失败") }

/-- The try block of handleRegenerate: in try-on mode a missing reference
or model image throws before the call; otherwise the mode-matching
generation call (an oracle outcome) runs. -/
def regenAttempt (mode : AppMode) (refEmpty modelMissing : Bool)
    (tryOnCall sceneCall : Except String String) : Except String String :=
  match mode with
  | AppMode.tryOn =>
      if refEmpty || modelMissing then Except.error "缺少原图信息" else tryOnCall
  | AppMode.scene => sceneCall

/-- handleRegenerate: resolve the owning batch and asset by id, apply the
start update, run the mode-dispatched generation attempt, and merge
either the success update or the failure update. -/
def handleRegenerate (tryOnCall sceneCall : GeneratedAsset → String → Except String String)
    (refEmpty modelMissing : Bool) (hist : List GenerationBatch)
    (assetId feedback : String) : List GenerationBatch :=
  match hist.find? (fun b => b.assets.any (fun a => a.id == assetId)) with
  | none => hist
  | some batch =>
    match batch.assets.find? (fun a => a.id == assetId) with
    | none => hist
    | some asset =>
      let hist1 := updateAssetInHistory batch.id assetId regenStartUpdate hist
      match regenAttempt batch.mode refEmpty modelMissing
          (tryOnCall asset feedback) (sceneCall asset feedback) with
      | Except.ok img => updateAssetInHistory batch.id assetId (regenSuccessUpdate img) hist1
      | Except.error _ => updateAssetInHistory batch.id assetId regenFailureUpdate hist1

/- ---------- Region selector (result card drag logic) ---------- -/

/-- handleMouseMove while dragging: width and height are the absolute
difference between the current and start percentage positions, x and y
the minimum of current and start. -/
def handleMouseMoveRegion (startX startY currentX currentY : ℚ) : Region :=
  { x := min currentX startX
    y := min currentY startY
    width := |currentX - startX|
    height := |currentY - startY| }

/- ---------- Concrete sample data for witnesses ---------- -/

def sampleAsset1 : GeneratedAsset :=
  { id := "a1", imageUrl := some "url1", imagePrompt := "细节特写", isImageLoading := false
    error := none, aspectRatio := AspectRatio.r3_4, resolution := ImageResolution.r2K
    feedbackDraft := none, isVerifyingFeedback := none, feedbackInterpretation := none
    feedbackReferenceImages := none, feedbackRegion := none }

def sampleAsset2 : GeneratedAsset :=
  { sampleAsset1 with id := "a2", imageUrl := some "url2" }

def sampleBatch1 : GenerationBatch :=
  { id := "b1", timestamp := 1, mode := AppMode.tryOn, assets := [sampleAsset1, sampleAsset2] }

def sampleBatch2 : GenerationBatch :=
  { id := "b2", timestamp := 2, mode := AppMode.scene, assets := [sampleAsset1] }

def sampleUpdate : AssetUpdate :=
  { isImageLoading := some false, error := some (some "x") }

def sampleUploadedFile : UploadedFile :=
  { file := "f.png", previewUrl := "blob:f", base64 := "data:image/png;base64,AAAA" }

def sampleGenOracle : GenTask → Except String String :=
  fun _ => Except.error "fetch failed"

/-- An operation that fails twice with transient 500s, a third time with a
deadline message, and then succeeds. -/
def sampleRetryOp : Nat → Except JsError Nat :=
  fun k =>
    if k < 3 then Except.error (JsError.inspectable (some 500) "Internal flake")
    else Except.ok 42

def sampleFailingCall : Nat → Except JsError (Option String) :=
  fun _ => Except.error (JsError.inspectable (some 503) "Overloaded")

/-- An operation that always fails with an error matching no status code
and no message signature of the classifier. -/
def sampleFatalOp : Nat → Except JsError Nat :=
  fun _ => Except.error (JsError.inspectable none "totally unknown failure")

def sampleUninspectableOp : Nat → Except JsError Nat :=
  fun _ => Except.error JsError.uninspectable

def sampleSvc : String → String → Option String → List String → Option Region → String :=
  fun _ _ _ _ _ => "service interpretation"

/-- A history whose only asset still carries a feedback draft from an
earlier verification round. -/
def assetWithDraft : GeneratedAsset :=
  { sampleAsset1 with feedbackDraft := some "old draft"
                      feedbackInterpretation := some "旧解释"
                      feedbackReferenceImages := some ["ref1"]
                      isVerifyingFeedback := some false }

def historyWithDraft : List GenerationBatch :=
  [ { id := "b1", timestamp := 1, mode := AppMode.tryOn, assets := [assetWithDraft] } ]

def sampleSceneCall : GeneratedAsset → String → Except String String :=
  fun _ _ => Except.ok "newimg"

def sampleSceneFailCall : GeneratedAsset → String → Except String String :=
  fun _ _ => Except.error "boom"

def sampleBatchScene : GenerationBatch :=
  { id := "b9", timestamp := 9, mode := AppMode.scene, assets := [sampleAsset1] }

/- ---------- Helper lemmas shared by the claim theorems ---------- -/

theorem updateAssetInHistory_length (batchId assetId : String) (u : AssetUpdate)
    (hist : List GenerationBatch) :
    (updateAssetInHistory batchId assetId u hist).length = hist.length := by
  simp [updateAssetInHistory]

theorem updateAssetInHistory_getElem_opt (batchId assetId : String) (u : AssetUpdate)
    (hist : List GenerationBatch) (i : Nat) :
    (updateAssetInHistory batchId assetId u hist)[i]?
      = (hist[i]?).map (fun b => if b.id ≠ batchId then b else updateBatchAssets assetId u b) := by
  simp [updateAssetInHistory]

theorem updateBatchAssets_getElem_opt (assetId : String) (u : AssetUpdate)
    (b : GenerationBatch) (j : Nat) :
    (updateBatchAssets assetId u b).assets[j]?
      = (b.assets[j]?).map (fun a => if a.id = assetId then applyAssetUpdate u a else a) := by
  simp [updateBatchAssets]

theorem updateAssetInHistory_target (batchId assetId : String) (u : AssetUpdate)
    (hist : List GenerationBatch) (i j : Nat) (b : GenerationBatch) (a : GeneratedAsset)
    (hb : hist[i]? = some b) (hbid : b.id = batchId)
    (ha : b.assets[j]? = some a) (haid : a.id = assetId) :
    ∃ b2, (updateAssetInHistory batchId assetId u hist)[i]? = some b2
      ∧ b2.id = b.id ∧ b2.assets[j]? = some (applyAssetUpdate u a) := by
  refine ⟨updateBatchAssets assetId u b, ?_, rfl, ?_⟩
  · rw [updateAssetInHistory_getElem_opt, hb]
    simp [hbid]
  · rw [updateBatchAssets_getElem_opt, ha]
    simp [haid]

theorem updateAssetInHistory_target_twice (batchId assetId : String) (u1 u2 : AssetUpdate)
    (hist : List GenerationBatch) (i j : Nat) (b : GenerationBatch) (a : GeneratedAsset)
    (hb : hist[i]? = some b) (hbid : b.id = batchId)
    (ha : b.assets[j]? = some a) (haid : a.id = assetId)
    (hid1 : u1.id = none) :
    ∃ b2, (updateAssetInHistory batchId assetId u2
             (updateAssetInHistory batchId assetId u1 hist))[i]? = some b2
      ∧ b2.id = b.id
      ∧ b2.assets[j]? = some (applyAssetUpdate u2 (applyAssetUpdate u1 a)) := by
  obtain ⟨b1, hb1, hbid1, ha1⟩ :=
    updateAssetInHistory_target batchId assetId u1 hist i j b a hb hbid ha haid
  have haid1 : (applyAssetUpdate u1 a).id = assetId := by
    simp [applyAssetUpdate, hid1, haid]
  obtain ⟨b2, hb2, hbid2, ha2⟩ :=
    updateAssetInHistory_target batchId assetId u2 _ i j b1 (applyAssetUpdate u1 a)
      hb1 (hbid1.trans hbid) ha1 haid1
  exact ⟨b2, hb2, hbid2.trans hbid1, ha2⟩

theorem runBatchLoop_trace (gen : GenTask → Except String String) (batchId : String)
    (tasks : List GenTask) (hist : List GenerationBatch) :
    (runBatchLoop gen batchId tasks hist).1 = tasks.map (fun t => (t.id, gen t)) := by
  induction tasks generalizing hist with
  | nil => simp [runBatchLoop]
  | cons t rest ih => simp [runBatchLoop, ih]

theorem runBatchLoop_append (gen : GenTask → Except String String) (batchId : String)
    (tasks1 tasks2 : List GenTask) (hist : List GenerationBatch) :
    runBatchLoop gen batchId (tasks1 ++ tasks2) hist
      = ((runBatchLoop gen batchId tasks1 hist).1
           ++ (runBatchLoop gen batchId tasks2 ((runBatchLoop gen batchId tasks1 hist).2)).1,
         (runBatchLoop gen batchId tasks2 ((runBatchLoop gen batchId tasks1 hist).2)).2) := by
  induction tasks1 generalizing hist with
  | nil => simp [runBatchLoop]
  | cons t rest ih => simp [runBatchLoop, ih]

theorem retryOperation_ok {α : Type} (op : Nat → Except JsError α) (r delay k : Nat)
    (v : α) (hop : op k = Except.ok v) :
    retryOperation op r delay k = (Except.ok v, 1, []) := by
  cases r <;> simp [retryOperation, hop]

theorem retryOperation_step {α : Type} (op : Nat → Except JsError α) (r delay k : Nat)
    (e : JsError) (hop : op k = Except.error e) (hc : classifyRetryable e = true) :
    retryOperation op (r + 1) delay k
      = ((retryOperation op r (delay * 2) (k + 1)).1,
         (retryOperation op r (delay * 2) (k + 1)).2.1 + 1,
         delay :: (retryOperation op r (delay * 2) (k + 1)).2.2) := by
  simp [retryOperation, hop, hc]

theorem retryOperation_fatal {α : Type} (op : Nat → Except JsError α) (r delay k : Nat)
    (e : JsError) (hop : op k = Except.error e) (hc : classifyRetryable e = false) :
    retryOperation op r delay k = (Except.error e, 1, []) := by
  cases r with
  | zero => simp [retryOperation, hop]
  | succ n => simp [retryOperation, hop, hc]

/- ---------- Claim theorems ---------- -/

/-- C9: for any two drag-corner points in percentage coordinates, the
region derived by the selector has x and y the minimum of the two
coordinates and width and height their absolute difference, identically
for all four corner-order permutations, hence non-negative width and
height. -/
theorem handleMouseMoveRegion_normalized (x1 y1 x2 y2 : ℚ) :
    (handleMouseMoveRegion x1 y1 x2 y2).x = min x1 x2
    ∧ (handleMouseMoveRegion x1 y1 x2 y2).y = min y1 y2
    ∧ (handleMouseMoveRegion x1 y1 x2 y2).width = |x1 - x2|
    ∧ (handleMouseMoveRegion x1 y1 x2 y2).height = |y1 - y2|
    ∧ 0 ≤ (handleMouseMoveRegion x1 y1 x2 y2).width
    ∧ 0 ≤ (handleMouseMoveRegion x1 y1 x2 y2).height
    ∧ handleMouseMoveRegion x2 y2 x1 y1 = handleMouseMoveRegion x1 y1 x2 y2
    ∧ handleMouseMoveRegion x1 y2 x2 y1 = handleMouseMoveRegion x1 y1 x2 y2
    ∧ handleMouseMoveRegion x2 y1 x1 y2 = handleMouseMoveRegion x1 y1 x2 y2 := by
  refine ⟨min_comm x2 x1, min_comm y2 y1, abs_sub_comm x2 x1, abs_sub_comm y2 y1,
    abs_nonneg _, abs_nonneg _, ?_, ?_, ?_⟩ <;>
    simp [handleMouseMoveRegion, min_comm, abs_sub_comm]

/-- C3: an operation that fails with retryable errors on its first three
attempts and succeeds on the fourth, run with retries 5 and initial delay
D, is attempted exactly 4 times, sleeps D, 2D, 4D before the retries, and
returns the successful result; the total sleep is 7D. -/
theorem retryOperation_backoff_three_failures {α : Type} (op : Nat → Except JsError α)
    (D : Nat) (v : α) (e0 e1 e2 : JsError)
    (h0 : op 0 = Except.error e0) (hr0 : classifyRetryable e0 = true)
    (h1 : op 1 = Except.error e1) (hr1 : classifyRetryable e1 = true)
    (h2 : op 2 = Except.error e2) (hr2 : classifyRetryable e2 = true)
    (h3 : op 3 = Except.ok v) :
    retryOperation op 5 D 0 = (Except.ok v, 4, [D, 2 * D, 4 * D])
    ∧ D + (2 * D + 4 * D) = 7 * D := by
  constructor
  · rw [show (5 : Nat) = 4 + 1 from rfl, retryOperation_step op 4 D 0 e0 h0 hr0,
      show (4 : Nat) = 3 + 1 from rfl, retryOperation_step op 3 (D * 2) 1 e1 h1 hr1,
      show (3 : Nat) = 2 + 1 from rfl, retryOperation_step op 2 (D * 2 * 2) 2 e2 h2 hr2,
      retryOperation_ok op 2 (D * 2 * 2 * 2) 3 v h3]
    simp only [Prod.mk.injEq, List.cons.injEq, eq_self_iff_true, true_and, and_true]
    omega
  · ring

/-- C3 witness: the concrete operation failing on attempts 0, 1, 2 with a
transient 500 and succeeding on attempt 3, with initial delay 100. -/
theorem retryOperation_backoff_witness :
    retryOperation sampleRetryOp 5 100 0 = (Except.ok 42, 4, [100, 2 * 100, 4 * 100])
    ∧ 100 + (2 * 100 + 4 * 100) = 7 * 100 :=
  retryOperation_backoff_three_failures sampleRetryOp 100 42
    (JsError.inspectable (some 500) "Internal flake")
    (JsError.inspectable (some 500) "Internal flake")
    (JsError.inspectable (some 500) "Internal flake")
    rfl (by decide) rfl (by decide) rfl (by decide) rfl

/-- C4 counterexample: an error carrying no recognized status and no
known transient-failure message signature is classified non-retryable and
is propagated after a single attempt with no backoff sleep, although 5
retries remained. -/
theorem retryOperation_unrecognized_counterexample :
    retryOperation sampleFatalOp 5 1000 0
      = (Except.error (JsError.inspectable none "totally unknown failure"), 1, ([] : List Nat))
    ∧ classifyRetryable (JsError.inspectable none "totally unknown failure") = false := by
  constructor
  · exact retryOperation_fatal sampleFatalOp 5 1000 0 _ rfl (by decide)
  · decide

/-- C4 (amended): an error whose inspected status and message match no
retryable signature is classified non-retryable and propagated
immediately, after exactly one attempt and no sleep, regardless of the
remaining retries; the fail-open default to retryable applies only when
inspecting the error itself throws, in which case the operation sleeps
for the current delay and retries. -/
theorem retryOperation_unrecognized_behavior {α : Type} (op : Nat → Except JsError α)
    (e : JsError) (r d k : Nat)
    (hop : op k = Except.error e) (hc : classifyRetryable e = false) :
    retryOperation op r d k = (Except.error e, 1, [])
    ∧ classifyRetryable JsError.uninspectable = true
    ∧ (∀ (op2 : Nat → Except JsError α) (r2 d2 k2 : Nat),
        op2 k2 = Except.error JsError.uninspectable →
        (retryOperation op2 (r2 + 1) d2 k2).2.2.head? = some d2) := by
  refine ⟨retryOperation_fatal op r d k e hop hc, rfl, ?_⟩
  intro op2 r2 d2 k2 h2
  rw [retryOperation_step op2 r2 d2 k2 JsError.uninspectable h2 rfl]
  rfl

/-- C4 (amended) witness: the unknown-signature error propagates at once
even with 5 retries left, and an uninspectable error sleeps and retries. -/
theorem retryOperation_unrecognized_behavior_witness :
    retryOperation sampleFatalOp 5 1000 0
      = (Except.error (JsError.inspectable none "totally unknown failure"), 1, [])
    ∧ (retryOperation sampleUninspectableOp (4 + 1) 1000 0).2.2.head? = some 1000 :=
  ⟨(retryOperation_unrecognized_behavior sampleFatalOp
      (JsError.inspectable none "totally unknown failure") 5 1000 0 rfl (by decide)).1,
   (retryOperation_unrecognized_behavior sampleFatalOp
      (JsError.inspectable none "totally unknown failure") 5 1000 0 rfl (by decide)).2.2
     sampleUninspectableOp 4 1000 0 rfl⟩

/-- C7: verifyFeedbackIntent never propagates an error: whenever the
retry-wrapped interpretation call settles with an error, the result is
the literal fallback string built from the raw feedback; when it settles
successfully the result is the processed response text; and in every case
the result is one of those two. -/
theorem verifyFeedbackIntent_absorbs_failures (call : Nat → Except JsError (Option String))
    (originalPrompt feedback : String) (cur : Option String) (files : List String)
    (region : Option Region) :
    ((∃ e, (retryOperation (fun k => Except.map interpretResponseText (call k)) 2 1000 0).1
        = Except.error e)
      → verifyFeedbackIntent call originalPrompt feedback cur files region
          = "确认您的需求：" ++ feedback)
    ∧ (∀ s, (retryOperation (fun k => Except.map interpretResponseText (call k)) 2 1000 0).1
        = Except.ok s
      → verifyFeedbackIntent call originalPrompt feedback cur files region = s)
    ∧ (verifyFeedbackIntent call originalPrompt feedback cur files region
        = "确认您的需求：" ++ feedback
      ∨ ∃ s, (retryOperation (fun k => Except.map interpretResponseText (call k)) 2 1000 0).1
            = Except.ok s
          ∧ verifyFeedbackIntent call originalPrompt feedback cur files region = s) := by
  refine ⟨?_, ?_, ?_⟩
  · rintro ⟨e, he⟩
    simp [verifyFeedbackIntent, he]
  · intro s hs
    simp [verifyFeedbackIntent, hs]
  · cases hres : (retryOperation (fun k => Except.map interpretResponseText (call k)) 2 1000 0).1 with
    | ok s => exact Or.inr ⟨s, rfl, by simp [verifyFeedbackIntent, hres]⟩
    | error e => exact Or.inl (by simp [verifyFeedbackIntent, hres])

/-- C7 witness: with an interpretation call that always fails with a 503,
the retry budget of 2 exhausts and the caller receives the fallback
string, not an error. -/
theorem verifyFeedbackIntent_absorbs_failures_witness :
    verifyFeedbackIntent sampleFailingCall "细节特写" "改成金色" none [] none
      = "确认您的需求：" ++ "改成金色" :=
  (verifyFeedbackIntent_absorbs_failures sampleFailingCall "细节特写" "改成金色" none [] none).1
    ⟨JsError.inspectable (some 503) "Overloaded", by rfl⟩

/-- C2: updateAssetInHistory preserves the number and order of batches;
every batch whose id differs from batchId is unchanged at its position;
in the batch at any position the metadata and the number and order of
assets are preserved, every asset whose id differs from assetId is
unchanged at its position, and the targeted asset of the matching batch
receives exactly the spread update; and every asset field not named by
the update is unchanged by the spread. -/
theorem updateAssetInHistory_isolation (hist : List GenerationBatch)
    (batchId assetId : String) (u : AssetUpdate) :
    (updateAssetInHistory batchId assetId u hist).length = hist.length
    ∧ (∀ i : Nat, ∀ b : GenerationBatch, hist[i]? = some b → b.id ≠ batchId →
        (updateAssetInHistory batchId assetId u hist)[i]? = some b)
    ∧ (∀ i : Nat, ∀ b : GenerationBatch, hist[i]? = some b → ∃ b2,
        (updateAssetInHistory batchId assetId u hist)[i]? = some b2
        ∧ b2.id = b.id ∧ b2.timestamp = b.timestamp ∧ b2.mode = b.mode
        ∧ b2.assets.length = b.assets.length
        ∧ (∀ j : Nat, ∀ a : GeneratedAsset, b.assets[j]? = some a → a.id ≠ assetId →
            b2.assets[j]? = some a)
        ∧ (∀ j : Nat, ∀ a : GeneratedAsset, b.assets[j]? = some a → b.id = batchId →
            a.id = assetId → b2.assets[j]? = some (applyAssetUpdate u a)))
    ∧ (∀ a : GeneratedAsset,
        (u.id = none → (applyAssetUpdate u a).id = a.id)
        ∧ (u.imageUrl = none → (applyAssetUpdate u a).imageUrl = a.imageUrl)
        ∧ (u.imagePrompt = none → (applyAssetUpdate u a).imagePrompt = a.imagePrompt)
        ∧ (u.isImageLoading = none → (applyAssetUpdate u a).isImageLoading = a.isImageLoading)
        ∧ (u.error = none → (applyAssetUpdate u a).error = a.error)
        ∧ (u.aspectRatio = none → (applyAssetUpdate u a).aspectRatio = a.aspectRatio)
        ∧ (u.resolution = none → (applyAssetUpdate u a).resolution = a.resolution)
        ∧ (u.feedbackDraft = none → (applyAssetUpdate u a).feedbackDraft = a.feedbackDraft)
        ∧ (u.isVerifyingFeedback = none →
            (applyAssetUpdate u a).isVerifyingFeedback = a.isVerifyingFeedback)
        ∧ (u.feedbackInterpretation = none →
            (applyAssetUpdate u a).feedbackInterpretation = a.feedbackInterpretation)
        ∧ (u.feedbackReferenceImages = none →
            (applyAssetUpdate u a).feedbackReferenceImages = a.feedbackReferenceImages)
        ∧ (u.feedbackRegion = none → (applyAssetUpdate u a).feedbackRegion = a.feedbackRegion)) := by
  refine ⟨updateAssetInHistory_length .., ?_, ?_, ?_⟩
  · intro i b hb hne
    rw [updateAssetInHistory_getElem_opt, hb]
    simp [hne]
  · intro i b hb
    by_cases hid : b.id = batchId
    · refine ⟨updateBatchAssets assetId u b, ?_, rfl, rfl, rfl, ?_, ?_, ?_⟩
      · rw [updateAssetInHistory_getElem_opt, hb]
        simp [hid]
      · simp [updateBatchAssets]
      · intro j a ha hne
        rw [updateBatchAssets_getElem_opt, ha]
        simp [hne]
      · intro j a ha _ haid
        rw [updateBatchAssets_getElem_opt, ha]
        simp [haid]
    · refine ⟨b, ?_, rfl, rfl, rfl, rfl, ?_, ?_⟩
      · rw [updateAssetInHistory_getElem_opt, hb]
        simp [hid]
      · intro j a ha _
        exact ha
      · intro j a _ hbid _
        exact absurd hbid hid
  · intro a
    refine ⟨?_, ?_, ?_, ?_, ?_, ?_, ?_, ?_, ?_, ?_, ?_, ?_⟩ <;>
      (intro h; simp [applyAssetUpdate, h])

/-- C2 witness: a two-batch history; the batch with the other id stays at
its position untouched, and the length is preserved. -/
theorem updateAssetInHistory_isolation_witness :
    (updateAssetInHistory "b1" "a1" sampleUpdate [sampleBatch1, sampleBatch2]).length = 2
    ∧ (updateAssetInHistory "b1" "a1" sampleUpdate [sampleBatch1, sampleBatch2])[1]?
        = some sampleBatch2 :=
  ⟨((updateAssetInHistory_isolation [sampleBatch1, sampleBatch2] "b1" "a1" sampleUpdate).1).trans rfl,
   (updateAssetInHistory_isolation [sampleBatch1, sampleBatch2] "b1" "a1" sampleUpdate).2.1
     1 sampleBatch2 rfl (by decide)⟩

/-- C1: whenever validation passes, handleGenerate creates the new batch
with exactly one placeholder asset per mode-defined task, 4 in try-on
mode and 3 in scene mode, each with isImageLoading true and no imageUrl,
and prepends it to the history; this pre-dispatch history is the same
whatever the generation oracle later returns. -/
theorem handleGenerate_batch_creation (mode : AppMode)
    (productImages referenceImages : List UploadedFile) (modelImage : Option UploadedFile)
    (scenePrompt : String) (ar : AspectRatio) (now ts : Nat) (prev : List GenerationBatch)
    (gen : GenTask → Except String String)
    (hp : productImages.length ≠ 0)
    (hm : mode = AppMode.tryOn → referenceImages.length ≠ 0 ∧ modelImage ≠ none) :
    ∃ r, handleGenerate mode productImages referenceImages modelImage scenePrompt ar now ts prev gen
        = some r
    ∧ r.1 = ({ id := toString now, timestamp := ts, mode := mode,
               assets := (mkTasks mode (toString now) scenePrompt).map (placeholderAsset ar) }
              : GenerationBatch) :: prev
    ∧ (mkTasks mode (toString now) scenePrompt).length = (if mode = AppMode.tryOn then 4 else 3)
    ∧ ((mkTasks mode (toString now) scenePrompt).map (placeholderAsset ar)).length
        = (mkTasks mode (toString now) scenePrompt).length
    ∧ (∀ a : GeneratedAsset,
        a ∈ (mkTasks mode (toString now) scenePrompt).map (placeholderAsset ar) →
          a.isImageLoading = true ∧ a.imageUrl = none)
    ∧ (∀ gen2 : GenTask → Except String String,
        Option.map Prod.fst
            (handleGenerate mode productImages referenceImages modelImage scenePrompt ar now ts prev gen2)
          = some r.1) := by
  have hcond : ¬(mode = AppMode.tryOn ∧ (referenceImages.length = 0 ∨ modelImage = none)) := by
    rintro ⟨hmode, hor⟩
    rcases hm hmode with ⟨hr, hmi⟩
    rcases hor with h | h
    · exact hr h
    · exact hmi h
  have hm2 : mode = AppMode.tryOn → ¬referenceImages = [] ∧ ¬modelImage = none := by
    intro h
    rcases hm h with ⟨hr, hmi⟩
    exact ⟨fun hnil => hr (by simp [hnil]), hmi⟩
  refine ⟨(({ id := toString now, timestamp := ts, mode := mode,
              assets := (mkTasks mode (toString now) scenePrompt).map (placeholderAsset ar) }
             : GenerationBatch) :: prev,
           runBatchLoop gen (toString now) (mkTasks mode (toString now) scenePrompt)
             (({ id := toString now, timestamp := ts, mode := mode,
                 assets := (mkTasks mode (toString now) scenePrompt).map (placeholderAsset ar) }
                : GenerationBatch) :: prev)),
          ?_, rfl, ?_, List.length_map .., ?_, ?_⟩
  · simp [handleGenerate, hp, hcond]
    exact hm2
  · cases mode <;> simp [mkTasks]
  · intro a ha
    simp only [List.mem_map] at ha
    obtain ⟨t, -, rfl⟩ := ha
    exact ⟨rfl, rfl⟩
  · intro gen2
    simp [handleGenerate, hp, hcond]
    exact hm2

/-- C1 witness: a scene-mode generation with one product image and an
always-failing oracle still creates the 3-asset placeholder batch
prepended to the empty history. -/
theorem handleGenerate_batch_creation_witness :
    ∃ r, handleGenerate AppMode.scene [sampleUploadedFile] [] none "大理石台面" AspectRatio.r3_4
        7 8 [] sampleGenOracle = some r
    ∧ r.1 = ({ id := toString 7, timestamp := 8, mode := AppMode.scene,
               assets := (mkTasks AppMode.scene (toString 7) "大理石台面").map
                 (placeholderAsset AspectRatio.r3_4) } : GenerationBatch) :: [] := by
  obtain ⟨r, hsome, hfst, -⟩ :=
    handleGenerate_batch_creation AppMode.scene [sampleUploadedFile] [] none "大理石台面"
      AspectRatio.r3_4 7 8 [] sampleGenOracle (by decide)
      (fun h => absurd h (by decide))
  exact ⟨r, hsome, hfst⟩

/-- C8: the batch loop is sequential and failure-tolerant: the dispatch
trace of any task list is exactly the tasks in order, each paired with
its settled outcome, so every task is dispatched exactly once regardless
of earlier failures; and for any split of the task list, the whole prefix
is dispatched and its results merged into history before the first task
of the suffix starts, which then runs from the history the prefix
produced. -/
theorem runBatchLoop_sequential (gen : GenTask → Except String String) (batchId : String)
    (tasks1 tasks2 : List GenTask) (hist : List GenerationBatch) :
    (runBatchLoop gen batchId (tasks1 ++ tasks2) hist).1
        = (tasks1 ++ tasks2).map (fun t => (t.id, gen t))
    ∧ runBatchLoop gen batchId (tasks1 ++ tasks2) hist
        = ((runBatchLoop gen batchId tasks1 hist).1
             ++ (runBatchLoop gen batchId tasks2 ((runBatchLoop gen batchId tasks1 hist).2)).1,
           (runBatchLoop gen batchId tasks2 ((runBatchLoop gen batchId tasks1 hist).2)).2) :=
  ⟨runBatchLoop_trace .., runBatchLoop_append ..⟩

/-- C5 counterexample: with empty feedback, no files and no region, the
clear path leaves a previously stored feedbackDraft on the asset instead
of resetting it, while the service is indeed not invoked. -/
theorem handleVerifyIntent_clear_keeps_draft :
    ((handleVerifyIntent sampleSvc historyWithDraft "a1" "" [] none).1.head?.bind
        (fun b => b.assets.head?.map (fun a => a.feedbackDraft))) = some (some "old draft")
    ∧ (handleVerifyIntent sampleSvc historyWithDraft "a1" "" [] none).2 = 0 := by
  constructor <;> rfl

/-- C5 (amended): invoking handleVerifyIntent with empty feedback text,
an empty reference-image list and no region applies only the clear
update, which resets isVerifyingFeedback to false and clears
feedbackInterpretation, feedbackReferenceImages and feedbackRegion,
leaves feedbackDraft unchanged, and does not invoke the interpretation
service (call count 0). -/
theorem handleVerifyIntent_clear_path
    (svc : String → String → Option String → List String → Option Region → String)
    (hist : List GenerationBatch) (assetId : String) (b : GenerationBatch)
    (hfb : hist.find? (fun bb => bb.assets.any (fun aa => aa.id == assetId)) = some b) :
    handleVerifyIntent svc hist assetId "" [] none
      = (updateAssetInHistory b.id assetId clearFeedbackUpdate hist, 0)
    ∧ (handleVerifyIntent svc hist assetId "" [] none).2 = 0
    ∧ (∀ x : GeneratedAsset,
        (applyAssetUpdate clearFeedbackUpdate x).isVerifyingFeedback = some false
        ∧ (applyAssetUpdate clearFeedbackUpdate x).feedbackInterpretation = none
        ∧ (applyAssetUpdate clearFeedbackUpdate x).feedbackReferenceImages = none
        ∧ (applyAssetUpdate clearFeedbackUpdate x).feedbackRegion = none
        ∧ (applyAssetUpdate clearFeedbackUpdate x).feedbackDraft = x.feedbackDraft) := by
  have h : handleVerifyIntent svc hist assetId "" [] none
      = (updateAssetInHistory b.id assetId clearFeedbackUpdate hist, 0) := by
    simp [handleVerifyIntent, hfb]
  exact ⟨h, by rw [h], fun x => ⟨rfl, rfl, rfl, rfl, rfl⟩⟩

/-- C5 (amended) witness: the clear request on the concrete one-asset
history applies exactly the clear update and makes no service call. -/
theorem handleVerifyIntent_clear_path_witness :
    handleVerifyIntent sampleSvc historyWithDraft "a1" "" [] none
      = (updateAssetInHistory "b1" "a1" clearFeedbackUpdate historyWithDraft, 0) :=
  (handleVerifyIntent_clear_path sampleSvc historyWithDraft "a1"
    { id := "b1", timestamp := 1, mode := AppMode.tryOn, assets := [assetWithDraft] } rfl).1

/-- C6: for an asset found in history, handleRegenerate first applies the
start update, setting isImageLoading true and clearing error and
feedbackInterpretation while leaving imageUrl alone, and on a successful
generation applies the success update, storing the new imageUrl, setting
isImageLoading false and clearing feedbackReferenceImages and
feedbackRegion; the asset at its position ends up with exactly the two
updates composed. -/
theorem handleRegenerate_success_lifecycle
    (tryOnCall sceneCall : GeneratedAsset → String → Except String String)
    (refEmpty modelMissing : Bool) (hist : List GenerationBatch)
    (assetId feedback : String) (b : GenerationBatch) (a : GeneratedAsset) (img : String)
    (hfb : hist.find? (fun bb => bb.assets.any (fun aa => aa.id == assetId)) = some b)
    (hfa : b.assets.find? (fun aa => aa.id == assetId) = some a)
    (hgen : regenAttempt b.mode refEmpty modelMissing (tryOnCall a feedback) (sceneCall a feedback)
        = Except.ok img) :
    handleRegenerate tryOnCall sceneCall refEmpty modelMissing hist assetId feedback
      = updateAssetInHistory b.id assetId (regenSuccessUpdate img)
          (updateAssetInHistory b.id assetId regenStartUpdate hist)
    ∧ (∀ x : GeneratedAsset,
        (applyAssetUpdate regenStartUpdate x).isImageLoading = true
        ∧ (applyAssetUpdate regenStartUpdate x).error = none
        ∧ (applyAssetUpdate regenStartUpdate x).feedbackInterpretation = none
        ∧ (applyAssetUpdate regenStartUpdate x).imageUrl = x.imageUrl)
    ∧ (∀ x : GeneratedAsset,
        (applyAssetUpdate (regenSuccessUpdate img) x).imageUrl = some img
        ∧ (applyAssetUpdate (regenSuccessUpdate img) x).isImageLoading = false
        ∧ (applyAssetUpdate (regenSuccessUpdate img) x).feedbackReferenceImages = none
        ∧ (applyAssetUpdate (regenSuccessUpdate img) x).feedbackRegion = none)
    ∧ (∀ i j : Nat, hist[i]? = some b → b.assets[j]? = some a →
        ∃ b2, (handleRegenerate tryOnCall sceneCall refEmpty modelMissing hist assetId feedback)[i]?
            = some b2
          ∧ b2.assets[j]? = some (applyAssetUpdate (regenSuccessUpdate img)
              (applyAssetUpdate regenStartUpdate a))) := by
  have heq : handleRegenerate tryOnCall sceneCall refEmpty modelMissing hist assetId feedback
      = updateAssetInHistory b.id assetId (regenSuccessUpdate img)
          (updateAssetInHistory b.id assetId regenStartUpdate hist) := by
    simp [handleRegenerate, hfb, hfa, hgen]
  have haid : a.id = assetId := by
    have hbeq := List.find?_some hfa
    exact eq_of_beq hbeq
  refine ⟨heq, fun x => ⟨rfl, rfl, rfl, rfl⟩, fun x => ⟨rfl, rfl, rfl, rfl⟩, ?_⟩
  intro i j hb hba
  obtain ⟨b2, hb2, -, ha2⟩ :=
    updateAssetInHistory_target_twice b.id assetId regenStartUpdate (regenSuccessUpdate img)
      hist i j b a hb rfl hba haid rfl
  rw [heq]
  exact ⟨b2, hb2, ha2⟩

/-- C6 witness: regenerating the concrete scene-mode asset with a
successful oracle applies exactly the start update then the success
update. -/
theorem handleRegenerate_success_witness :
    handleRegenerate sampleSceneFailCall sampleSceneCall false false [sampleBatchScene]
        "a1" "改成金色"
      = updateAssetInHistory "b9" "a1" (regenSuccessUpdate "newimg")
          (updateAssetInHistory "b9" "a1" regenStartUpdate [sampleBatchScene]) :=
  (handleRegenerate_success_lifecycle sampleSceneFailCall sampleSceneCall false false
    [sampleBatchScene] "a1" "改成金色" sampleBatchScene sampleAsset1 "newimg" rfl rfl rfl).1

/-- C10: when the regeneration attempt fails, only the start update and
the failure update are applied; neither names imageUrl, so the asset at
its position keeps its previously stored imageUrl, with isImageLoading
false and the error message set. -/
theorem handleRegenerate_failure_preserves_image
    (tryOnCall sceneCall : GeneratedAsset → String → Except String String)
    (refEmpty modelMissing : Bool) (hist : List GenerationBatch)
    (assetId feedback : String) (b : GenerationBatch) (a : GeneratedAsset) (err : String)
    (hfb : hist.find? (fun bb => bb.assets.any (fun aa => aa.id == assetId)) = some b)
    (hfa : b.assets.find? (fun aa => aa.id == assetId) = some a)
    (hgen : regenAttempt b.mode refEmpty modelMissing (tryOnCall a feedback) (sceneCall a feedback)
        = Except.error err) :
    handleRegenerate tryOnCall sceneCall refEmpty modelMissing hist assetId feedback
      = updateAssetInHistory b.id assetId regenFailureUpdate
          (updateAssetInHistory b.id assetId regenStartUpdate hist)
    ∧ (∀ x : GeneratedAsset,
        (applyAssetUpdate regenFailureUpdate (applyAssetUpdate regenStartUpdate x)).imageUrl
            = x.imageUrl
        ∧ (applyAssetUpdate regenFailureUpdate (applyAssetUpdate regenStartUpdate x)).isImageLoading
            = false
        ∧ (applyAssetUpdate regenFailureUpdate (applyAssetUpdate regenStartUpdate x)).error
            = some "重绘失败")
    ∧ (∀ i j : Nat, hist[i]? = some b → b.assets[j]? = some a →
        ∃ b2, (handleRegenerate tryOnCall sceneCall refEmpty modelMissing hist assetId feedback)[i]?
            = some b2
          ∧ b2.assets[j]? = some (applyAssetUpdate regenFailureUpdate
              (applyAssetUpdate regenStartUpdate a))
          ∧ (applyAssetUpdate regenFailureUpdate (applyAssetUpdate regenStartUpdate a)).imageUrl
              = a.imageUrl) := by
  have heq : handleRegenerate tryOnCall sceneCall refEmpty modelMissing hist assetId feedback
      = updateAssetInHistory b.id assetId regenFailureUpdate
          (updateAssetInHistory b.id assetId regenStartUpdate hist) := by
    simp [handleRegenerate, hfb, hfa, hgen]
  have haid : a.id = assetId := by
    have hbeq := List.find?_some hfa
    exact eq_of_beq hbeq
  refine ⟨heq, fun x => ⟨rfl, rfl, rfl⟩, ?_⟩
  intro i j hb hba
  obtain ⟨b2, hb2, -, ha2⟩ :=
    updateAssetInHistory_target_twice b.id assetId regenStartUpdate regenFailureUpdate
      hist i j b a hb rfl hba haid rfl
  rw [heq]
  exact ⟨b2, hb2, ha2, rfl⟩

/-- C10 witness: a failed regeneration of the concrete asset keeps its
stored imageUrl at its history position. -/
theorem handleRegenerate_failure_witness :
    ∃ b2, (handleRegenerate sampleSceneCall sampleSceneFailCall false false [sampleBatchScene]
        "a1" "改小一点")[0]? = some b2
      ∧ b2.assets[0]? = some (applyAssetUpdate regenFailureUpdate
          (applyAssetUpdate regenStartUpdate sampleAsset1))
      ∧ (applyAssetUpdate regenFailureUpdate
          (applyAssetUpdate regenStartUpdate sampleAsset1)).imageUrl = sampleAsset1.imageUrl :=
  (handleRegenerate_failure_preserves_image sampleSceneCall sampleSceneFailCall false false
    [sampleBatchScene] "a1" "改小一点" sampleBatchScene sampleAsset1 "boom" rfl rfl rfl).2.2
    0 0 rfl rfl

end LuxeFit
